import Mathlib

/-!
Shallow embedding of the Streamlit RAG chatbot in `app.py`.

The app keeps its conversation in `st.session_state.messages`, a list of
dicts with keys `role`, `content` and (for assistant messages) `sources`.
One Streamlit script run ("cycle") reads the pending example-question
selection and the chat input, and — when a non-empty question results —
appends a user message, invokes the RAG chain, and on success appends an
assistant message; an exception from the chain is caught and shown as an
error without appending an assistant message.

The external RAG chain (`qa_chain({"query": q})`) is modelled as an
abstract function `String → Except String (String × List Doc)`: either an
answer with its source documents, or a raised exception carrying a message.
-/

namespace Chatbot

/-- Role of one conversation message: the dict field `role` is the string
`"user"` or `"assistant"` in the source. -/
inductive Role where
  | user
  | assistant
  deriving DecidableEq

/-- A retrieved document as used by `display_message`: `doc.metadata` is a
string-keyed dict. Metadata values are rendered into f-strings in the
source, so they are modelled by their rendered string. -/
structure Doc where
  content : String
  metadata : List (String × String)
  deriving DecidableEq

/-- Dict lookup on a metadata dict: `metadata.get(key)` / the presence test
behind `metadata[key]` (which raises `KeyError` when absent). -/
def lookupMeta : List (String × String) → String → Option String
  | [], _ => none
  | (k, v) :: rest, key => if k == key then some v else lookupMeta rest key

/-- One entry of `st.session_state.messages`: `{"role": ..., "content": ...}`
with the optional `"sources"` key on assistant messages. -/
structure Turn where
  role : Role
  content : String
  sources : Option (List Doc)
  deriving DecidableEq

/-- The session state touched by `main()`: the list `messages` and the
transient `current_question` key (absent ↦ `none`). -/
structure SessionState where
  messages : List Turn
  current_question : Option String
  deriving DecidableEq

/-- Outcome of one `qa_chain({"query": q})` call: `Except.ok (answer,
source_documents)` on success, `Except.error msg` when the call raises. -/
abbrev QaResult := Except String (String × List Doc)

/-- The RAG chain as a black-box function from the question to its outcome. -/
abbrev QaChain := String → QaResult

/-! ## `load_rag_system` (lines 79–127)

The construction steps run inside one `try` block, in source order:
build `OpenAIEmbeddings`, check `Path("./chroma_db").exists()` (on absence:
a dedicated error message and `st.stop()`), open `Chroma`, build
`ChatOpenAI`, build the retriever, build the `RetrievalQA` chain. Each step
may raise; `st.stop()` raises a Streamlit control-flow signal derived from
`BaseException`, so it is not caught by the `except Exception` handler.
The environment records, per step, whether it raises and with what message. -/

/-- Which construction steps of `load_rag_system` raise, and whether the
persisted index directory `./chroma_db` exists. -/
structure RagEnv where
  embeddingsError : Option String
  indexExists : Bool
  vectordbError : Option String
  llmError : Option String
  retrieverError : Option String
  chainError : Option String
  deriving DecidableEq

/-- Result of `load_rag_system`: loaded, halted via the dedicated
index-missing message (`"❌ 벡터 DB를 찾을 수 없습니다..."` then `st.stop()`),
or halted via the generic handler (`"❌ RAG 시스템 로드 실패: {e}"` then
`st.stop()`). -/
inductive LoadOutcome where
  | loaded
  | indexNotFound
  | loadFailed (msg : String)
  deriving DecidableEq

/-- Control flow of `load_rag_system` over an abstract environment,
following the source order of the construction steps. -/
def load_rag_system (env : RagEnv) : LoadOutcome :=
  match env.embeddingsError with
  | some e => LoadOutcome.loadFailed e
  | none =>
    if !env.indexExists then LoadOutcome.indexNotFound
    else
      match env.vectordbError with
      | some e => LoadOutcome.loadFailed e
      | none =>
        match env.llmError with
        | some e => LoadOutcome.loadFailed e
        | none =>
          match env.retrieverError with
          | some e => LoadOutcome.loadFailed e
          | none =>
            match env.chainError with
            | some e => LoadOutcome.loadFailed e
            | none => LoadOutcome.loaded

/-! ## Retriever configuration (lines 110–113) -/

/-- The fixed `k` passed in `search_kwargs` to `vectordb.as_retriever`:
the literal `3`, independent of the corpus. -/
def retriever_k : Nat := 3

/-- Modelled from the spec: the Chroma similarity search behind the
retriever is not part of `src/`; per the spec it returns the top-K stored
documents nearest to the query in relevance-descending order, so given the
corpus already ordered by descending relevance to the query it returns the
first `k` of them. -/
def similaritySearch (rankedCorpus : List Doc) (k : Nat) : List Doc :=
  rankedCorpus.take k

/-- One retriever query as configured by `load_rag_system`: the similarity
search with the fixed `retriever_k`. -/
def retrieve (rankedCorpus : List Doc) : List Doc :=
  similaritySearch rankedCorpus retriever_k

/-! ## `display_message` (lines 130–161) -/

/-- One `st.markdown` block emitted by `display_message`. -/
inductive Rendered where
  | userMessage (content : String)
  | botMessage (content : String)
  | sourceBox (text : String)
  deriving DecidableEq

/-- The source-list loop body, from index `i` (Python `enumerate(sources, 1)`):
each document reads `doc.metadata['page_num']` and `doc.metadata['title']`
(a `KeyError` — modelled as `none` — when absent) and
`doc.metadata.get('category', '기타')`. Returns the concatenated lines. -/
def sourceLinesFrom : Nat → List Doc → Option String
  | _, [] => some ""
  | i, doc :: rest =>
    match lookupMeta doc.metadata "page_num", lookupMeta doc.metadata "title" with
    | some page, some title =>
      let category := (lookupMeta doc.metadata "category").getD "기타"
      (sourceLinesFrom (i + 1) rest).map (fun restText =>
        toString i ++ ". 📄 **페이지 " ++ page ++ "**: " ++ title ++
          " (카테고리: " ++ category ++ ")\n\n" ++ restText)
    | _, _ => none

/-- `display_message(role, content, sources)`: the blocks it renders, or
`none` when the source loop raises `KeyError`. The source box is emitted
only when `sources` is truthy (present and non-empty). -/
def display_message (role : String) (content : String)
    (sources : Option (List Doc)) : Option (List Rendered) :=
  if role == "user" then
    some [Rendered.userMessage content]
  else
    match sources with
    | none => some [Rendered.botMessage content]
    | some srcs =>
      if srcs.isEmpty then
        some [Rendered.botMessage content]
      else
        (sourceLinesFrom 1 srcs).map (fun text =>
          [Rendered.botMessage content,
           Rendered.sourceBox ("📚 **출처:**\n\n" ++ text)])

/-! ## The interaction cycle in `main()` (lines 238–273)

`user_input = st.chat_input(...)` is `None` when nothing was submitted;
then the pending `current_question` (set by an example-question button)
overrides it and is deleted; then `if user_input:` guards the processing,
which appends the user message, runs the chain, and appends the assistant
message only on success. -/

/-- Lines 239–244: read the chat input and the pending example-question
selection; the pending value replaces the typed input and is deleted. -/
def readInput (st : SessionState) (typed : Option String) :
    Option String × SessionState :=
  match st.current_question with
  | some q => (some q, { st with current_question := none })
  | none => (typed, st)

/-- Lines 247–270: append the user message, run `qa_chain`, and on success
append the assistant message; on exception append nothing further. -/
def processQuestion (qa : QaChain) (msgs : List Turn) (q : String) : List Turn :=
  let withUser := msgs ++ [⟨Role.user, q, none⟩]
  match qa q with
  | Except.ok (answer, sources) => withUser ++ [⟨Role.assistant, answer, some sources⟩]
  | Except.error _ => withUser

/-- One full question-handling cycle: the resulting session state paired
with the list of questions sent to `qa_chain` during the cycle (empty when
no external call is made). An empty or absent question is falsy in
`if user_input:` and leads to no processing. -/
def runCycle (qa : QaChain) (st : SessionState) (typed : Option String) :
    SessionState × List String :=
  match readInput st typed with
  | (some q, st1) =>
    if q.isEmpty then (st1, [])
    else ({ st1 with messages := processQuestion qa st1.messages q }, [q])
  | (none, st1) => (st1, [])

/-- The sidebar reset button (lines 190–192): `st.session_state.messages = []`. -/
def resetMessages (st : SessionState) : SessionState :=
  { st with messages := [] }

/-- `len(st.session_state.messages)`. -/
def turnCount (st : SessionState) : Nat := st.messages.length

/-- The conversation metric of line 204: `len(st.session_state.messages) // 2`. -/
def exchangeCount (st : SessionState) : Nat := st.messages.length / 2

/-- The operations the app performs on the conversation state: the reset
button, or one question-handling cycle with some chain and some input. -/
inductive Op where
  | reset : Op
  | cycle (qa : QaChain) (typed : Option String) : Op

/-- Apply one operation to the session state. -/
def applyOp : Op → SessionState → SessionState
  | Op.reset, st => resetMessages st
  | Op.cycle qa typed, st => (runCycle qa st typed).1

/-- Run a sequence of submissions from a given state: each entry is the
submitted question paired with the outcome the chain would produce for it. -/
def runSubmissions : SessionState → List (String × QaResult) → SessionState
  | st, [] => st
  | st, (q, r) :: rest => runSubmissions ((runCycle (fun _ => r) st (some q)).1) rest

/-- Number of successful submissions in a submission list. -/
def countOk : List (String × QaResult) → Nat
  | [] => 0
  | (_, Except.ok _) :: rest => countOk rest + 1
  | (_, Except.error _) :: rest => countOk rest

/-- Number of failed submissions in a submission list. -/
def countErr : List (String × QaResult) → Nat
  | [] => 0
  | (_, Except.ok _) :: rest => countErr rest
  | (_, Except.error _) :: rest => countErr rest + 1

/-! ## Helper lemmas -/

theorem runCycle_pending_none_some (qa : QaChain) (msgs : List Turn) (q : String)
    (hq : q.isEmpty = false) :
    runCycle qa ⟨msgs, none⟩ (some q) = (⟨processQuestion qa msgs q, none⟩, [q]) := by
  simp [runCycle, readInput, hq]

theorem runCycle_no_input (qa : QaChain) (msgs : List Turn) :
    runCycle qa ⟨msgs, none⟩ none = (⟨msgs, none⟩, []) := by
  simp [runCycle, readInput]

theorem processQuestion_error (qa : QaChain) (msgs : List Turn) (q e : String)
    (h : qa q = Except.error e) :
    processQuestion qa msgs q = msgs ++ [⟨Role.user, q, none⟩] := by
  simp [processQuestion, h]

theorem processQuestion_ok (qa : QaChain) (msgs : List Turn) (q answer : String)
    (sources : List Doc) (h : qa q = Except.ok (answer, sources)) :
    processQuestion qa msgs q =
      msgs ++ [⟨Role.user, q, none⟩, ⟨Role.assistant, answer, some sources⟩] := by
  simp [processQuestion, h]

/-! ## Claim theorems -/

/-- C1: if the chain call raises while answering question A, the
conversation afterwards holds the user turn for A with no assistant turn
for it and is otherwise exactly the prior message list; a subsequent
successful question B then appends its user and assistant turns normally,
giving `prior ++ [user:A, user:B, assistant:B]`. -/
theorem failed_then_successful_question (qaA qaB : QaChain) (st : SessionState)
    (A B answer err : String) (sources : List Doc)
    (hp : st.current_question = none)
    (hA : A.isEmpty = false) (hB : B.isEmpty = false)
    (hfail : qaA A = Except.error err)
    (hok : qaB B = Except.ok (answer, sources)) :
    (runCycle qaA st (some A)).1.messages = st.messages ++ [⟨Role.user, A, none⟩] ∧
    (runCycle qaB (runCycle qaA st (some A)).1 (some B)).1.messages =
      st.messages ++ [⟨Role.user, A, none⟩, ⟨Role.user, B, none⟩,
        ⟨Role.assistant, answer, some sources⟩] := by
  obtain ⟨msgs, pending⟩ := st
  cases hp
  rw [runCycle_pending_none_some qaA msgs A hA,
    processQuestion_error qaA msgs A err hfail]
  refine ⟨rfl, ?_⟩
  rw [runCycle_pending_none_some qaB _ B hB,
    processQuestion_ok qaB _ B answer sources hok]
  simp

theorem failed_then_successful_question_witness :
    (runCycle (fun _ => Except.error "boom") (SessionState.mk [] none) (some "A")).1.messages
      = [] ++ [⟨Role.user, "A", none⟩] ∧
    (runCycle (fun _ => Except.ok ("ans", []))
        (runCycle (fun _ => Except.error "boom") (SessionState.mk [] none) (some "A")).1
        (some "B")).1.messages
      = [] ++ [⟨Role.user, "A", none⟩, ⟨Role.user, "B", none⟩,
          ⟨Role.assistant, "ans", some []⟩] :=
  failed_then_successful_question (fun _ => Except.error "boom")
    (fun _ => Except.ok ("ans", [])) (SessionState.mk [] none)
    "A" "B" "ans" "boom" [] rfl rfl rfl rfl rfl

/-- C3: with no prior pending selection, selecting example question Q
(pending set, no typed input) and typing Q produce the same cycle result —
the same question list sent to the chain and the same resulting messages —
the pending selection is cleared by the cycle that reads it, and a
subsequent cycle with no new input is a no-op that reprocesses nothing. -/
theorem quick_question_equivalence (qa qa2 : QaChain) (st : SessionState) (Q : String)
    (hp : st.current_question = none) :
    runCycle qa { st with current_question := some Q } none = runCycle qa st (some Q) ∧
    (runCycle qa { st with current_question := some Q } none).1.current_question = none ∧
    runCycle qa2 (runCycle qa { st with current_question := some Q } none).1 none
      = ((runCycle qa { st with current_question := some Q } none).1, []) := by
  obtain ⟨msgs, pending⟩ := st
  cases hp
  refine ⟨by simp [runCycle, readInput], ?_, ?_⟩ <;>
    by_cases hQ : Q.isEmpty <;>
      simp [runCycle, readInput, hQ]

theorem quick_question_equivalence_witness :
    runCycle (fun _ => Except.ok ("ans", []))
        { SessionState.mk [] none with current_question := some "Q" } none
      = runCycle (fun _ => Except.ok ("ans", [])) (SessionState.mk [] none) (some "Q") :=
  (quick_question_equivalence (fun _ => Except.ok ("ans", []))
    (fun _ => Except.ok ("ans", [])) (SessionState.mk [] none) "Q" rfl).1

/-- C6: resetting a conversation of any size yields turn count 0, and a
subsequent cycle behaves exactly as in a freshly started session: the same
chain calls are made and the same state results, so no prior turn
influences the new answer. -/
theorem reset_then_fresh_session (qa : QaChain) (st : SessionState) (typed : Option String)
    (hp : st.current_question = none) :
    turnCount (resetMessages st) = 0 ∧
    runCycle qa (resetMessages st) typed = runCycle qa (SessionState.mk [] none) typed := by
  obtain ⟨msgs, pending⟩ := st
  cases hp
  exact ⟨rfl, rfl⟩

theorem reset_then_fresh_session_witness :
    turnCount (resetMessages (SessionState.mk [⟨Role.user, "A", none⟩] none)) = 0 ∧
    runCycle (fun _ => Except.ok ("ans", []))
        (resetMessages (SessionState.mk [⟨Role.user, "A", none⟩] none)) (some "B")
      = runCycle (fun _ => Except.ok ("ans", [])) (SessionState.mk [] none) (some "B") :=
  reset_then_fresh_session (fun _ => Except.ok ("ans", []))
    (SessionState.mk [⟨Role.user, "A", none⟩] none) (some "B") rfl

/-- C7: with nothing pending, a cycle in which no question is submitted, or
the empty string is submitted, is a no-op: the state is unchanged and no
call to the chain (hence no embedding, retrieval or generation) is made. -/
theorem empty_input_noop (qa : QaChain) (st : SessionState)
    (hp : st.current_question = none) :
    runCycle qa st none = (st, []) ∧ runCycle qa st (some "") = (st, []) := by
  obtain ⟨msgs, pending⟩ := st
  cases hp
  refine ⟨runCycle_no_input qa msgs, ?_⟩
  simp [runCycle, readInput]
  rfl

theorem empty_input_noop_witness :
    runCycle (fun _ => Except.ok ("ans", []))
        (SessionState.mk [⟨Role.user, "A", none⟩] none) none
      = (SessionState.mk [⟨Role.user, "A", none⟩] none, []) ∧
    runCycle (fun _ => Except.ok ("ans", []))
        (SessionState.mk [⟨Role.user, "A", none⟩] none) (some "")
      = (SessionState.mk [⟨Role.user, "A", none⟩] none, []) :=
  empty_input_noop (fun _ => Except.ok ("ans", []))
    (SessionState.mk [⟨Role.user, "A", none⟩] none) rfl

/-- C10: a pending example-question selection takes precedence over any
typed input in the same cycle — the input read is the pending question and
the pending value is deleted before processing — so the whole cycle ignores
the typed input entirely. -/
theorem pending_selection_precedence (qa : QaChain) (msgs : List Turn) (Q : String)
    (typed : Option String) :
    readInput ⟨msgs, some Q⟩ typed = (some Q, ⟨msgs, none⟩) ∧
    runCycle qa ⟨msgs, some Q⟩ typed = runCycle qa ⟨msgs, some Q⟩ none := by
  exact ⟨rfl, by simp [runCycle, readInput]⟩

/-- Each submission with a non-empty question grows the message list by 2
on success and by 1 on failure, and leaves no pending selection. -/
theorem runSubmissions_spec (subs : List (String × QaResult)) :
    ∀ msgs : List Turn, (∀ p ∈ subs, (Prod.fst p).isEmpty = false) →
      (runSubmissions ⟨msgs, none⟩ subs).messages.length
          = msgs.length + (2 * countOk subs + countErr subs) ∧
      (runSubmissions ⟨msgs, none⟩ subs).current_question = none := by
  induction subs with
  | nil =>
    intro msgs _
    exact ⟨by simp [runSubmissions, countOk, countErr], rfl⟩
  | cons p rest ih =>
    obtain ⟨q, r⟩ := p
    intro msgs h
    have hq : q.isEmpty = false := h (q, r) (List.mem_cons_self _ _)
    have hrest : ∀ p ∈ rest, (Prod.fst p).isEmpty = false :=
      fun p hp => h p (List.mem_cons_of_mem _ hp)
    have step : runSubmissions ⟨msgs, none⟩ ((q, r) :: rest)
        = runSubmissions ⟨processQuestion (fun _ => r) msgs q, none⟩ rest := by
      show runSubmissions ((runCycle (fun _ => r) ⟨msgs, none⟩ (some q)).1) rest = _
      rw [runCycle_pending_none_some (fun _ => r) msgs q hq]
    rw [step]
    obtain ⟨hlen, hpend⟩ := ih (processQuestion (fun _ => r) msgs q) hrest
    refine ⟨?_, hpend⟩
    rw [hlen]
    cases r with
    | ok v =>
      obtain ⟨ans, srcs⟩ := v
      rw [processQuestion_ok (fun _ => Except.ok (ans, srcs)) msgs q ans srcs rfl]
      simp [countOk, countErr]
      omega
    | error e =>
      rw [processQuestion_error (fun _ => Except.error e) msgs q e rfl]
      simp [countOk, countErr]
      omega

/-- C2 counterexample: with N = 0 successful and M = 2 failed submissions
(questions "A" and "B", the chain raising on both), the stored turns are
the two user turns, so the claimed exchange count N = 0 is contradicted:
line 204 computes `2 // 2 = 1`. -/
theorem exchange_count_counterexample :
    countOk [("A", (Except.error "boom" : QaResult)),
             ("B", (Except.error "boom" : QaResult))] = 0 ∧
    countErr [("A", (Except.error "boom" : QaResult)),
              ("B", (Except.error "boom" : QaResult))] = 2 ∧
    turnCount (runSubmissions (SessionState.mk [] none)
      [("A", (Except.error "boom" : QaResult)),
       ("B", (Except.error "boom" : QaResult))]) = 2 ∧
    exchangeCount (runSubmissions (SessionState.mk [] none)
      [("A", (Except.error "boom" : QaResult)),
       ("B", (Except.error "boom" : QaResult))]) = 1 := by
  decide

/-- C2 (amended): exchange count is the number of stored turns
integer-divided by 2; after N successful and M failed submissions the turn
count is 2N + M and the exchange count is (2N + M) / 2 = N + M / 2, which
equals N whenever at most one submission failed — in particular a single
trailing unanswered user turn is not counted as a full exchange — but for
M ≥ 2 the dangling user turns pair up and inflate the count beyond N. -/
theorem exchange_count_formula (subs : List (String × QaResult))
    (h : ∀ p ∈ subs, (Prod.fst p).isEmpty = false) :
    turnCount (runSubmissions (SessionState.mk [] none) subs)
        = 2 * countOk subs + countErr subs ∧
    exchangeCount (runSubmissions (SessionState.mk [] none) subs)
        = (2 * countOk subs + countErr subs) / 2 ∧
    (countErr subs ≤ 1 →
      exchangeCount (runSubmissions (SessionState.mk [] none) subs) = countOk subs) := by
  obtain ⟨hlen, -⟩ := runSubmissions_spec subs [] h
  have hl : turnCount (runSubmissions (SessionState.mk [] none) subs)
      = 2 * countOk subs + countErr subs := by
    simpa [turnCount] using hlen
  refine ⟨hl, ?_, ?_⟩
  · show turnCount (runSubmissions (SessionState.mk [] none) subs) / 2 = _
    rw [hl]
  · intro hm
    show turnCount (runSubmissions (SessionState.mk [] none) subs) / 2 = _
    rw [hl]
    omega

theorem exchange_count_formula_witness :
    exchangeCount (runSubmissions (SessionState.mk [] none)
      [("A", (Except.ok ("ans", []) : QaResult)),
       ("B", (Except.error "boom" : QaResult))]) = 1 :=
  ((exchange_count_formula
      [("A", (Except.ok ("ans", []) : QaResult)),
       ("B", (Except.error "boom" : QaResult))] (by decide)).2.2 (by decide)).trans
    (by decide)

/-- C4: when the index directory is absent (and construction reaches the
existence check), `load_rag_system` halts through its dedicated
index-not-found signal, which is a different outcome from every generic
construction failure, and the result is never a loaded system, so no
answer can be served. -/
theorem index_missing_fatal (env : RagEnv)
    (hemb : env.embeddingsError = none) (hidx : env.indexExists = false) :
    load_rag_system env = LoadOutcome.indexNotFound ∧
    (∀ msg, LoadOutcome.indexNotFound ≠ LoadOutcome.loadFailed msg) ∧
    load_rag_system env ≠ LoadOutcome.loaded := by
  have h : load_rag_system env = LoadOutcome.indexNotFound := by
    simp [load_rag_system, hemb, hidx]
  refine ⟨h, fun msg hne => ?_, fun hne => ?_⟩
  · exact LoadOutcome.noConfusion hne
  · rw [h] at hne
    exact LoadOutcome.noConfusion hne

theorem index_missing_fatal_witness :
    load_rag_system (RagEnv.mk none false none none none none)
      = LoadOutcome.indexNotFound :=
  (index_missing_fatal (RagEnv.mk none false none none none none) rfl rfl).1

/-- `processQuestion` only ever appends to the message list. -/
theorem processQuestion_append (qa : QaChain) (msgs : List Turn) (q : String) :
    ∃ tail : List Turn, processQuestion qa msgs q = msgs ++ tail := by
  cases h : qa q with
  | ok v =>
    obtain ⟨ans, srcs⟩ := v
    exact ⟨[⟨Role.user, q, none⟩, ⟨Role.assistant, ans, some srcs⟩],
      by rw [processQuestion_ok qa msgs q ans srcs h]⟩
  | error e =>
    exact ⟨[⟨Role.user, q, none⟩], by rw [processQuestion_error qa msgs q e h]⟩

/-- A question-handling cycle only ever appends to the message list: the
prior messages stay an unchanged prefix of the new list. -/
theorem runCycle_messages_append (qa : QaChain) (st : SessionState)
    (typed : Option String) :
    ∃ tail : List Turn, (runCycle qa st typed).1.messages = st.messages ++ tail := by
  obtain ⟨msgs, pending⟩ := st
  cases pending with
  | some q =>
    by_cases hq : q.isEmpty
    · exact ⟨[], by simp [runCycle, readInput, hq]⟩
    · obtain ⟨tail, ht⟩ := processQuestion_append qa msgs q
      exact ⟨tail, by simpa [runCycle, readInput, hq] using ht⟩
  | none =>
    cases typed with
    | some q =>
      by_cases hq : q.isEmpty
      · exact ⟨[], by simp [runCycle, readInput, hq]⟩
      · obtain ⟨tail, ht⟩ := processQuestion_append qa msgs q
        exact ⟨tail, by simpa [runCycle, readInput, hq] using ht⟩
    | none => exact ⟨[], by simp [runCycle, readInput]⟩

/-- C5: over the operation alphabet of the app — the reset button and the
question-handling cycle — reset empties the message list, and every cycle
leaves the prior messages as an unchanged prefix: reset is the only
operation that removes turns, and no operation reorders or edits turns
already appended. -/
theorem reset_only_removes_turns (st : SessionState) :
    (applyOp Op.reset st).messages = [] ∧
    ∀ (qa : QaChain) (typed : Option String),
      ∃ tail : List Turn, (applyOp (Op.cycle qa typed) st).messages = st.messages ++ tail :=
  ⟨rfl, fun qa typed => runCycle_messages_append qa st typed⟩

/-- C8: the retriever is configured with the fixed constant K = 3 — the
same K regardless of the corpus — and every retrieval result has length at
most 3. -/
theorem retrieval_result_bounded (rankedCorpus : List Doc) :
    retriever_k = 3 ∧ (retrieve rankedCorpus).length ≤ 3 := by
  refine ⟨rfl, ?_⟩
  simp [retrieve, similaritySearch, retriever_k, List.length_take]

/-- Mapping a function over an optional value preserves whether it is
present. -/
theorem isSome_map_eq {A B : Type} (f : A → B) (o : Option A) :
    (o.map f).isSome = o.isSome := by
  cases o <;> rfl

/-- The source loop renders without a KeyError exactly when every document
carries the page_num and title metadata keys. -/
theorem sourceLinesFrom_isSome (srcs : List Doc) : ∀ i : Nat,
    (sourceLinesFrom i srcs).isSome = true ↔
      ∀ d ∈ srcs, (lookupMeta d.metadata "page_num").isSome = true ∧
        (lookupMeta d.metadata "title").isSome = true := by
  induction srcs with
  | nil =>
    intro i
    simp [sourceLinesFrom]
  | cons d rest ih =>
    intro i
    cases hp : lookupMeta d.metadata "page_num" with
    | none => simp [sourceLinesFrom, hp]
    | some page =>
      cases ht : lookupMeta d.metadata "title" with
      | none => simp [sourceLinesFrom, hp, ht]
      | some title => simp [sourceLinesFrom, hp, ht, isSome_map_eq, ih (i + 1)]

/-- C9: rendering an assistant turn with a non-empty source list succeeds
exactly when every source document carries the metadata keys page_num and
title (a missing one is the modelled KeyError), while a missing category
key alone does not fail: the rendered line then uses the default 기타. -/
theorem assistant_sources_metadata (content : String) (srcs : List Doc)
    (hne : srcs ≠ []) :
    ((display_message "assistant" content (some srcs)).isSome = true ↔
      ∀ d ∈ srcs, (lookupMeta d.metadata "page_num").isSome = true ∧
        (lookupMeta d.metadata "title").isSome = true) ∧
    (∀ (i : Nat) (d : Doc) (page title : String),
      lookupMeta d.metadata "page_num" = some page →
      lookupMeta d.metadata "title" = some title →
      lookupMeta d.metadata "category" = none →
      sourceLinesFrom i [d] = some (toString i ++ ". 📄 **페이지 " ++ page ++
        "**: " ++ title ++ " (카테고리: " ++ "기타" ++ ")\n\n")) := by
  constructor
  · have hempty : srcs.isEmpty = false := by
      cases srcs with
      | nil => exact absurd rfl hne
      | cons a l => rfl
    have hd : display_message "assistant" content (some srcs)
        = (sourceLinesFrom 1 srcs).map (fun text =>
            [Rendered.botMessage content,
             Rendered.sourceBox ("📚 **출처:**\n\n" ++ text)]) := by
      simp [display_message, hempty]
    rw [hd, isSome_map_eq]
    exact sourceLinesFrom_isSome srcs 1
  · intro i d page title hp ht hc
    simp [sourceLinesFrom, hp, ht, hc, String.append_empty]

theorem assistant_sources_metadata_witness :
    (display_message "assistant" "hi"
      (some [Doc.mk "c" [("page_num", "3"), ("title", "T")]])).isSome = true :=
  ((assistant_sources_metadata "hi" [Doc.mk "c" [("page_num", "3"), ("title", "T")]]
    (by decide)).1).mpr (by decide)

end Chatbot
